import Mathlib

/-!
Shallow embedding of the testbot_server repository (src/app.py, src/utils.py,
src/models.py) for checking its natural-language specification.

Modelling conventions:
* The relational store is a `Store` value: lists of `Chapter`, `Article`,
  `Tariff` rows.  SQLAlchemy session commit/rollback is modelled by either
  returning an updated `Store` (commit) or the original one (rollback /
  no commit before the session closes).
* The uploads directory is a `List String` of filenames on disk;
  `file.save` conses the generated name, `os.remove` is `List.erase`.
* An uploaded multipart file is an `UploadFile`: its original filename, the
  pixel dimensions PIL would report, and `decodeError = some e` when
  `Image.open` would raise (e.g. a corrupt file).
* `uuid.uuid4()` is passed in as an explicit `uuid : String` argument;
  `secure_filename` is the identity on the generated `uuid ++ "." ++ ext`
  names the code builds.
* Python float arithmetic (`width / height`, the 16/9 tolerance bounds) is
  modelled exactly over `Rat`.
* Flask responses are `ApiResp` values: the HTTP status code plus the JSON
  body (a message string or a serialized entity dict).
-/

/-- One row of the `chapters` table (models.py, class Chapter). -/
structure Chapter where
  id : Nat
  photo_path : Option String
  title : String
  order : Int
deriving DecidableEq, Repr

/-- One row of the `articles` table (models.py, class Article). -/
structure Article where
  id : Nat
  photo_path : Option String
  title : String
  description : String
  link : String
  order : Int
  chapter_id : Nat
deriving DecidableEq, Repr

/-- One row of the `tariffs` table (models.py, class Tariff).
`price` is NUMERIC(10,2), modelled as an exact rational. -/
structure Tariff where
  id : Nat
  name : String
  duration_days : Int
  price : Rat
  currency : String
  is_active : Bool
deriving DecidableEq, Repr

/-- The whole relational store. -/
structure Store where
  chapters : List Chapter
  articles : List Article
  tariffs : List Tariff
deriving DecidableEq, Repr

/-- models.py: BASE_IMAGE_URL (default value). -/
def BASE_IMAGE_URL : String := "http://127.0.0.1:5000/uploads/"

/-- The serialized photo_url: the base URL prefix concatenated with the
stored filename, or null when the path is Python-falsy (absent or empty). -/
def photoUrl (p : Option String) : Option String :=
  match p with
  | none => none
  | some q => if q = "" then none else some ( BASE_IMAGE_URL ++ q)

/-- Serialized shape of a chapter (Chapter.to_dict). -/
structure ChapterDict where
  id : Nat
  title : String
  photo_url : Option String
  order : Int
deriving DecidableEq, Repr

def Chapter.to_dict (c : Chapter) : ChapterDict :=
  { id := c.id, title := c.title, photo_url := photoUrl c.photo_path, order := c.order }

/-- Serialized shape of an article (Article.to_dict). -/
structure ArticleDict where
  id : Nat
  title : String
  description : String
  link : String
  photo_url : Option String
  order : Int
  chapter_id : Nat
deriving DecidableEq, Repr

def Article.to_dict (a : Article) : ArticleDict :=
  { id := a.id, title := a.title, description := a.description, link := a.link,
    photo_url := photoUrl a.photo_path, order := a.order, chapter_id := a.chapter_id }

/-- Serialized shape of a tariff (Tariff.to_dict); `float(price)` is the
identity under the exact-rational model of NUMERIC values. -/
structure TariffDict where
  id : Nat
  name : String
  duration_days : Int
  price : Rat
  currency : String
  is_active : Bool
deriving DecidableEq, Repr

def Tariff.to_dict (t : Tariff) : TariffDict :=
  { id := t.id, name := t.name, duration_days := t.duration_days, price := t.price,
    currency := t.currency, is_active := t.is_active }

/-- A JSON response body: either a message/error object or a serialized entity. -/
inductive Body where
  | msg (text : String)
  | chapter (c : ChapterDict)
  | article (a : ArticleDict)
  | tariff (t : TariffDict)
deriving DecidableEq, Repr

/-- An HTTP response: status code plus JSON body. -/
structure ApiResp where
  status : Nat
  body : Body
deriving DecidableEq, Repr

/-! ## utils.py -/

/-- utils.py: ALLOWED_EXTENSIONS. -/
def ALLOWED_EXTENSIONS : List String := ["png", "jpg", "jpeg", "gif"]

/-- utils.py: ASPECT_RATIO = 16 / 9 (Python float, modelled exactly). -/
def ASPECT_RATIO : Rat := 16 / 9

/-- utils.py: ASPECT_RATIO_TOLERANCE = 0.05. -/
def ASPECT_RATIO_TOLERANCE : Rat := 5 / 100

/-- The extension a Python rsplit on the last dot yields, i.e. the part of
the filename after its last dot (only ever invoked on filenames that
contain a dot). -/
def fileExt (filename : String) : String :=
  String.mk ((filename.toList.reverse.takeWhile (fun c => c ≠ '.')).reverse)

/-- An uploaded multipart file: original filename, the pixel size PIL reports,
and whether `Image.open` raises (`decodeError = some e` models a decode
exception with message `e`). -/
structure UploadFile where
  filename : String
  width : Nat
  height : Nat
  decodeError : Option String
deriving DecidableEq, Repr

/-- utils.py: allowed_file — `'.' in filename and
filename.rsplit('.', 1)[1].lower() in ALLOWED_EXTENSIONS`. -/
def allowed_file (filename : String) : Bool :=
  filename.toList.contains '.' && ALLOWED_EXTENSIONS.contains (fileExt filename).toLower

/-- The error message built from the measured ratio (the Python code formats
the two numbers with two decimal digits; the exact text of the numeric part
is irrelevant to every claim, so the rational is printed directly). -/
def aspectErrorMsg (actual : Rat) : String :=
  "Invalid aspect ratio. Required: ~" ++ toString ASPECT_RATIO ++ ", found: " ++ toString actual

/-- utils.py: save_photo.  Takes the optional uploaded file, the fresh
uuid4 token, and the current uploads directory; returns the
`(photo_filename, error)` pair together with the directory after the call.
Mirrors the source order: empty-file check, extension check, `file.save`,
`Image.open` (decode failure and the zero-height ValueError both land in the
generic `except` which removes the just-written file), ratio bounds check
(out of bounds removes the file). -/
def save_photo (file : Option UploadFile) (uuid : String) (fs : List String) :
    (Option String × Option String) × List String :=
  match file with
  | none => ((none, none), fs)
  | some f =>
    if f.filename = "" then ((none, none), fs)
    else if !(allowed_file f.filename) then
      ((none, some "Invalid file type. Allowed types: png, jpg, jpeg, gif"), fs)
    else
      let filename := uuid ++ "." ++ (fileExt f.filename).toLower
      let fs1 := filename :: fs
      match f.decodeError with
      | some e => ((none, some ("Error processing image: " ++ e)), fs1.erase filename)
      | none =>
        if f.height = 0 then
          ((none, some "Error processing image: Image height cannot be zero."),
           fs1.erase filename)
        else
          let r : Rat := (f.width : Rat) / (f.height : Rat)
          let lower_bound := ASPECT_RATIO * (1 - ASPECT_RATIO_TOLERANCE)
          let upper_bound := ASPECT_RATIO * (1 + ASPECT_RATIO_TOLERANCE)
          if lower_bound ≤ r ∧ r ≤ upper_bound then
            ((some filename, none), fs1)
          else
            ((none, some (aspectErrorMsg r)), fs1.erase filename)

/-- utils.py: delete_photo — no-op on a falsy filename, otherwise removes the
file if it exists (errors are swallowed). -/
def delete_photo (photo_filename : Option String) (fs : List String) : List String :=
  match photo_filename with
  | none => fs
  | some p => if p = "" then fs else if fs.contains p then fs.erase p else fs

/-! ## app.py — handlers

All handlers run behind `admin_required`; the claims under study are about
the post-authorization behaviour, so requests are modelled as already
authorized.  Each handler takes the store and the uploads directory and
returns `(response, store', uploads')`; a handler that never touches the
disk omits the uploads component.  Fresh surrogate ids and uuid tokens are
explicit arguments. -/

/-- The multipart form of POST /chapters: `request.form.get('title')`
(absent field is `none`) and `request.files.get('photo')`. -/
structure CreateChapterReq where
  title : Option String
  photo : Option UploadFile
deriving Repr

/-- SQL `MAX(col)` over a column: `none` on an empty set. -/
def maxOrder : List Int → Option Int
  | [] => none
  | x :: xs => some (match maxOrder xs with | none => x | some m => max x m)

/-- app.py: create_chapter (POST /chapters).  `if not title` rejects an
absent or empty title; `save_photo` errors become 400; the new order is
`(max_order or 0) + 1` (for SQL MAX an integer result of 0 is Python-falsy
but `0 or 0 = 0`, so `Option.getD 0` is exact). -/
def create_chapter (s : Store) (fs : List String) (req : CreateChapterReq)
    (uuid : String) (newId : Nat) : ApiResp × Store × List String :=
  if req.title.getD "" = "" then (⟨400, .msg "Title is required"⟩, s, fs)
  else
    match save_photo req.photo uuid fs with
    | ((_, some e), fs1) => (⟨400, .msg e⟩, s, fs1)
    | ((pf, none), fs1) =>
      let max_order := maxOrder (s.chapters.map (·.order))
      let new_order := max_order.getD 0 + 1
      let new_chapter : Chapter :=
        { id := newId, photo_path := pf, title := req.title.getD "", order := new_order }
      (⟨201, .chapter new_chapter.to_dict⟩,
       { s with chapters := s.chapters ++ [new_chapter] }, fs1)

/-- The multipart form of PUT /chapters.  `id` is `data.get('id')` with the
DB-side coercion of the form string to an integer key; `order` is
`int(data['order'])`. -/
structure UpdateChapterReq where
  id : Option Nat
  title : Option String
  order : Option Int
  photo : Option UploadFile
deriving Repr

/-- Commit of a mutated ORM row: the session row with the same id is
replaced. -/
def setChapterRow (cs : List Chapter) (ch : Chapter) : List Chapter :=
  cs.map fun c => if c.id = ch.id then ch else c

/-- app.py: update_chapter (PUT /chapters).  Field mutations happen on the
session object; they become visible only through the final `db.commit()` —
the 400 return on a photo error happens before any commit, so the store is
unchanged there (the session is closed, discarding the pending mutations).
`if file:` uses werkzeug FileStorage truthiness, i.e. a non-empty filename.
The old photo file is deleted from disk before the new one is validated. -/
def update_chapter (s : Store) (fs : List String) (req : UpdateChapterReq)
    (uuid : String) : ApiResp × Store × List String :=
  match req.id with
  | none => (⟨400, .msg "Chapter ID is required in body"⟩, s, fs)
  | some cid =>
    match s.chapters.find? (fun c => c.id == cid) with
    | none => (⟨404, .msg "Chapter not found"⟩, s, fs)
    | some chapter0 =>
      let chapter1 := match req.title with
        | some t => { chapter0 with title := t }
        | none => chapter0
      let chapter2 := match req.order with
        | some o => { chapter1 with order := o }
        | none => chapter1
      match req.photo with
      | some f =>
        if f.filename ≠ "" then
          let fs1 := delete_photo chapter2.photo_path fs
          match save_photo (some f) uuid fs1 with
          | ((_, some e), fs2) => (⟨400, .msg e⟩, s, fs2)
          | ((pf, none), fs2) =>
            let chapter3 := { chapter2 with photo_path := pf }
            (⟨200, .chapter chapter3.to_dict⟩,
             { s with chapters := setChapterRow s.chapters chapter3 }, fs2)
        else (⟨200, .chapter chapter2.to_dict⟩,
              { s with chapters := setChapterRow s.chapters chapter2 }, fs)
      | none => (⟨200, .chapter chapter2.to_dict⟩,
                 { s with chapters := setChapterRow s.chapters chapter2 }, fs)

/-- One element of the PATCH /chapters/order (or /articles/order) JSON
payload: an object with `id` and `order` keys. -/
structure OrderItem where
  id : Nat
  order : Int
deriving DecidableEq, Repr

/-- One pass of the reorder loop body: `chapter_map[item['id']].order =
item['order']` on the session rows. -/
def setChapterOrder (cs : List Chapter) (i : Nat) (o : Int) : List Chapter :=
  cs.map fun c => if c.id = i then { c with order := o } else c

/-- The `for item in order_data` loop of update_chapters_order: `ids` is the
key set of `chapter_map` (the chapters of the store that occur in the
payload — for a payload item, membership is equivalent to existence in the
store); a missing id raises NoResultFound carrying that id. -/
def chapterOrderLoop (ids : List Nat) : List Chapter → List OrderItem →
    Except Nat (List Chapter)
  | cs, [] => Except.ok cs
  | cs, item :: rest =>
    if item.id ∈ ids then chapterOrderLoop ids (setChapterOrder cs item.id item.order) rest
    else Except.error item.id

/-- app.py: update_chapters_order (PATCH /chapters/order).  `payload = none`
models a JSON body that is not a list (`isinstance` check fails).  On
NoResultFound the session is rolled back (original store) and a 404 names
the missing id; on success the single `db.commit()` publishes every
assignment.  (The generic `except` branch is unreachable for well-formed
`{id, order}` items, which is the payload type modelled here.) -/
def update_chapters_order (s : Store) (payload : Option (List OrderItem)) :
    ApiResp × Store :=
  match payload with
  | none => (⟨400, .msg "Invalid data format. Expected a list of objects."⟩, s)
  | some order_data =>
    match chapterOrderLoop (s.chapters.map (·.id)) s.chapters order_data with
    | .ok cs => (⟨200, .msg "Chapters order updated successfully"⟩, { s with chapters := cs })
    | .error i => (⟨404, .msg ("Chapter with id " ++ toString i ++ " not found")⟩, s)

/-- The multipart form of POST /articles; the required-fields check is key
presence (`field in data`). -/
structure CreateArticleReq where
  title : Option String
  description : Option String
  link : Option String
  chapter_id : Option Nat
  photo : Option UploadFile
deriving Repr

/-- app.py: create_article (POST /articles).  Presence check on the four
required fields, then the chapter-existence check (404) strictly before
`save_photo`, then order assignment scoped to the chapter. -/
def create_article (s : Store) (fs : List String) (req : CreateArticleReq)
    (uuid : String) (newId : Nat) : ApiResp × Store × List String :=
  match req.title, req.description, req.link, req.chapter_id with
  | some title, some desc, some link, some cid =>
    if (s.chapters.find? (fun c => c.id == cid)).isNone then
      (⟨404, .msg ("Chapter with id " ++ toString cid ++ " not found")⟩, s, fs)
    else
      match save_photo req.photo uuid fs with
      | ((_, some e), fs1) => (⟨400, .msg e⟩, s, fs1)
      | ((pf, none), fs1) =>
        let max_order := maxOrder ((s.articles.filter (fun a => a.chapter_id == cid)).map (·.order))
        let new_order := max_order.getD 0 + 1
        let new_article : Article :=
          { id := newId, photo_path := pf, title := title, description := desc,
            link := link, order := new_order, chapter_id := cid }
        (⟨201, .article new_article.to_dict⟩,
         { s with articles := s.articles ++ [new_article] }, fs1)
  | _, _, _, _ => (⟨400, .msg "Missing required fields"⟩, s, fs)

/-- The multipart form of PUT /articles. -/
structure UpdateArticleReq where
  id : Option Nat
  title : Option String
  description : Option String
  link : Option String
  order : Option Int
  chapter_id : Option Nat
  photo : Option UploadFile
deriving Repr

/-- Commit of a mutated article row. -/
def setArticleRow (al : List Article) (a : Article) : List Article :=
  al.map fun x => if x.id = a.id then a else x

/-- app.py: update_article (PUT /articles), mirroring update_chapter with the
article field list. -/
def update_article (s : Store) (fs : List String) (req : UpdateArticleReq)
    (uuid : String) : ApiResp × Store × List String :=
  match req.id with
  | none => (⟨400, .msg "Article ID is required in body"⟩, s, fs)
  | some aid =>
    match s.articles.find? (fun a => a.id == aid) with
    | none => (⟨404, .msg "Article not found"⟩, s, fs)
    | some a0 =>
      let a1 := match req.title with | some t => { a0 with title := t } | none => a0
      let a2 := match req.description with | some d => { a1 with description := d } | none => a1
      let a3 := match req.link with | some l => { a2 with link := l } | none => a2
      let a4 := match req.order with | some o => { a3 with order := o } | none => a3
      let a5 := match req.chapter_id with | some c => { a4 with chapter_id := c } | none => a4
      match req.photo with
      | some f =>
        if f.filename ≠ "" then
          let fs1 := delete_photo a5.photo_path fs
          match save_photo (some f) uuid fs1 with
          | ((_, some e), fs2) => (⟨400, .msg e⟩, s, fs2)
          | ((pf, none), fs2) =>
            let a6 := { a5 with photo_path := pf }
            (⟨200, .article a6.to_dict⟩,
             { s with articles := setArticleRow s.articles a6 }, fs2)
        else (⟨200, .article a5.to_dict⟩,
              { s with articles := setArticleRow s.articles a5 }, fs)
      | none => (⟨200, .article a5.to_dict⟩,
                 { s with articles := setArticleRow s.articles a5 }, fs)

/-- Reorder loop body for articles. -/
def setArticleOrder (al : List Article) (i : Nat) (o : Int) : List Article :=
  al.map fun a => if a.id = i then { a with order := o } else a

/-- The `for item in order_data` loop of update_articles_order. -/
def articleOrderLoop (ids : List Nat) : List Article → List OrderItem →
    Except Nat (List Article)
  | al, [] => Except.ok al
  | al, item :: rest =>
    if item.id ∈ ids then articleOrderLoop ids (setArticleOrder al item.id item.order) rest
    else Except.error item.id

/-- app.py: update_articles_order (PATCH /articles/order). -/
def update_articles_order (s : Store) (payload : Option (List OrderItem)) :
    ApiResp × Store :=
  match payload with
  | none => (⟨400, .msg "Invalid data format. Expected a list of objects."⟩, s)
  | some order_data =>
    match articleOrderLoop (s.articles.map (·.id)) s.articles order_data with
    | .ok al => (⟨200, .msg "Articles order updated successfully"⟩, { s with articles := al })
    | .error i => (⟨404, .msg ("Article with id " ++ toString i ++ " not found")⟩, s)

/-- app.py: get_tariff (GET /tariffs/{id}) — lookup by id AND is_active. -/
def get_tariff (s : Store) (tariff_id : Nat) : ApiResp :=
  match s.tariffs.find? (fun t => t.id == tariff_id && t.is_active) with
  | none => ⟨404, .msg "Active tariff not found"⟩
  | some t => ⟨200, .tariff t.to_dict⟩

/-! ## Derived definitions used only to state and prove the claims -/

/-- The value an entity whose id is `i` and whose order was `o` holds after
the whole reorder payload has been applied (last assignment wins). -/
def finalOrder (items : List OrderItem) (i : Nat) (o : Int) : Int :=
  items.foldl (fun acc item => if item.id = i then item.order else acc) o

/-- `[1, 2, ..., k]` as integers. -/
def ordSeq (k : Nat) : List Int := (List.range k).map (fun i => (i : Int) + 1)

/-- A sequence of POST /chapters calls, each with a title, no explicit order
(the endpoint never accepts one) and no photo; the fresh id of each create
is supplied alongside its title. -/
def runChapterCreates : Store → List String → List (String × Nat) → Store × List String
  | s, fs, [] => (s, fs)
  | s, fs, (t, nid) :: rest =>
    let r := create_chapter s fs { title := some t, photo := none } "" nid
    runChapterCreates r.2.1 r.2.2 rest

/-! ## Helper lemmas -/

theorem maxOrder_eq_none {l : List Int} : maxOrder l = none ↔ l = [] := by
  cases l <;> simp [maxOrder]

theorem maxOrder_mem : ∀ {l : List Int} {m : Int}, maxOrder l = some m → m ∈ l := by
  intro l
  induction l with
  | nil => intro m h; simp [maxOrder] at h
  | cons x xs ih =>
    intro m h
    simp only [maxOrder] at h
    cases hm : maxOrder xs with
    | none =>
      rw [hm] at h
      simp only [Option.some.injEq] at h
      subst h
      exact List.mem_cons_self x xs
    | some m' =>
      rw [hm] at h
      simp only [Option.some.injEq] at h
      subst h
      rcases le_total x m' with hle | hle
      · rw [max_eq_right hle]
        exact List.mem_cons_of_mem x (ih hm)
      · rw [max_eq_left hle]
        exact List.mem_cons_self x xs

theorem maxOrder_le : ∀ {l : List Int} {m : Int}, maxOrder l = some m → ∀ y ∈ l, y ≤ m := by
  intro l
  induction l with
  | nil => intro m h; simp [maxOrder] at h
  | cons x xs ih =>
    intro m h y hy
    simp only [maxOrder] at h
    cases hm : maxOrder xs with
    | none =>
      rw [hm] at h
      simp only [Option.some.injEq] at h
      subst h
      rcases List.mem_cons.mp hy with h1 | h1
      · exact le_of_eq h1
      · rw [maxOrder_eq_none.mp hm] at h1; cases h1
    | some m' =>
      rw [hm] at h
      simp only [Option.some.injEq] at h
      subst h
      rcases List.mem_cons.mp hy with h1 | h1
      · rw [h1]; exact le_max_left x m'
      · exact le_trans (ih hm y h1) (le_max_right x m')

theorem maxOrder_unique {l : List Int} {m : Int} (hmem : m ∈ l) (hub : ∀ y ∈ l, y ≤ m) :
    maxOrder l = some m := by
  cases hl : maxOrder l with
  | none =>
    rw [maxOrder_eq_none.mp hl] at hmem
    cases hmem
  | some m' =>
    have h1 : m' ∈ l := maxOrder_mem hl
    have h2 : m ≤ m' := maxOrder_le hl m hmem
    have h3 : m' ≤ m := hub m' h1
    rw [le_antisymm h2 h3]

theorem maxOrder_append_singleton (l : List Int) (x : Int) :
    maxOrder (l ++ [x]) = some (max ((maxOrder l).getD x) x) := by
  induction l with
  | nil => simp [maxOrder]
  | cons y l ih =>
    rw [List.cons_append]
    simp only [maxOrder]
    rw [ih]
    cases hl : maxOrder l with
    | none => simp
    | some m => simp [max_assoc]

theorem maxOrder_ordSeq (k : Nat) :
    maxOrder (ordSeq k) = if k = 0 then none else some (k : Int) := by
  induction k with
  | zero => rfl
  | succ k ih =>
    have hsplit : ordSeq (k + 1) = ordSeq k ++ [(k : Int) + 1] := by
      simp [ordSeq, List.range_succ]
    rw [hsplit, maxOrder_append_singleton, ih]
    by_cases hk : k = 0
    · subst hk; simp
    · rw [if_neg hk, if_neg (Nat.succ_ne_zero k)]
      simp only [Option.getD_some]
      rw [max_eq_right (by omega : (k : Int) ≤ (k : Int) + 1)]
      norm_cast

theorem finalOrder_cons (it : OrderItem) (rest : List OrderItem) (i : Nat) (o : Int) :
    finalOrder (it :: rest) i o = finalOrder rest i (if it.id = i then it.order else o) := rfl

theorem finalOrder_not_mem : ∀ (items : List OrderItem) (i : Nat) (o : Int),
    i ∉ items.map (·.id) → finalOrder items i o = o := by
  intro items
  induction items with
  | nil => intro i o _; rfl
  | cons it rest ih =>
    intro i o h
    simp only [List.map_cons, List.mem_cons] at h
    push_neg at h
    rw [finalOrder_cons, if_neg (fun he => h.1 he.symm), ih i o h.2]

theorem finalOrder_nodup : ∀ (items : List OrderItem), (items.map (·.id)).Nodup →
    ∀ it ∈ items, ∀ o : Int, finalOrder items it.id o = it.order := by
  intro items
  induction items with
  | nil => intro _ it h; cases h
  | cons hd rest ih =>
    intro hnd it hmem o
    simp only [List.map_cons, List.nodup_cons] at hnd
    rcases List.mem_cons.mp hmem with heq | hmem'
    · subst heq
      rw [finalOrder_cons, if_pos rfl]
      exact finalOrder_not_mem rest it.id it.order hnd.1
    · rw [finalOrder_cons]
      exact ih hnd.2 it hmem' _

theorem chapterOrderLoop_ok_iff : ∀ (items : List OrderItem) (ids : List Nat) (cs : List Chapter),
    (∃ cs', chapterOrderLoop ids cs items = .ok cs') ↔ ∀ it ∈ items, it.id ∈ ids := by
  intro items
  induction items with
  | nil => intro ids cs; simp [chapterOrderLoop]
  | cons it rest ih =>
    intro ids cs
    simp only [chapterOrderLoop]
    by_cases h : it.id ∈ ids
    · rw [if_pos h]
      rw [ih ids (setChapterOrder cs it.id it.order)]
      simp [h]
    · rw [if_neg h]
      constructor
      · rintro ⟨cs', hcs'⟩; cases hcs'
      · intro hall
        exact absurd (hall it (List.mem_cons_self it rest)) h

theorem chapterOrderLoop_ok_eq : ∀ (items : List OrderItem) (ids : List Nat) (cs cs' : List Chapter),
    chapterOrderLoop ids cs items = .ok cs' →
    cs' = cs.map fun c => { c with order := finalOrder items c.id c.order } := by
  intro items
  induction items with
  | nil =>
    intro ids cs cs' h
    simp only [chapterOrderLoop, Except.ok.injEq] at h
    subst h
    exact (List.map_id' cs).symm
  | cons it rest ih =>
    intro ids cs cs' h
    simp only [chapterOrderLoop] at h
    by_cases hmem : it.id ∈ ids
    · rw [if_pos hmem] at h
      rw [ih ids _ cs' h]
      simp only [setChapterOrder, List.map_map]
      apply List.map_congr_left
      intro c _
      simp only [Function.comp]
      by_cases hid : c.id = it.id
      · rw [if_pos hid, finalOrder_cons, hid, if_pos rfl]
      · rw [if_neg hid, finalOrder_cons, if_neg (fun he => hid he.symm)]
    · rw [if_neg hmem] at h
      cases h

theorem articleOrderLoop_ok_iff : ∀ (items : List OrderItem) (ids : List Nat) (al : List Article),
    (∃ al', articleOrderLoop ids al items = .ok al') ↔ ∀ it ∈ items, it.id ∈ ids := by
  intro items
  induction items with
  | nil => intro ids al; simp [articleOrderLoop]
  | cons it rest ih =>
    intro ids al
    simp only [articleOrderLoop]
    by_cases h : it.id ∈ ids
    · rw [if_pos h]
      rw [ih ids (setArticleOrder al it.id it.order)]
      simp [h]
    · rw [if_neg h]
      constructor
      · rintro ⟨al', hal'⟩; cases hal'
      · intro hall
        exact absurd (hall it (List.mem_cons_self it rest)) h

theorem articleOrderLoop_ok_eq : ∀ (items : List OrderItem) (ids : List Nat) (al al' : List Article),
    articleOrderLoop ids al items = .ok al' →
    al' = al.map fun a => { a with order := finalOrder items a.id a.order } := by
  intro items
  induction items with
  | nil =>
    intro ids al al' h
    simp only [articleOrderLoop, Except.ok.injEq] at h
    subst h
    exact (List.map_id' al).symm
  | cons it rest ih =>
    intro ids al al' h
    simp only [articleOrderLoop] at h
    by_cases hmem : it.id ∈ ids
    · rw [if_pos hmem] at h
      rw [ih ids _ al' h]
      simp only [setArticleOrder, List.map_map]
      apply List.map_congr_left
      intro a _
      simp only [Function.comp]
      by_cases hid : a.id = it.id
      · rw [if_pos hid, finalOrder_cons, hid, if_pos rfl]
      · rw [if_neg hid, finalOrder_cons, if_neg (fun he => hid he.symm)]
    · rw [if_neg hmem] at h
      cases h

theorem save_photo_error_cases (file : Option UploadFile) (uuid : String) (fs : List String) :
    ((save_photo file uuid fs).1.2.isSome →
      (save_photo file uuid fs).1.1 = none ∧ (save_photo file uuid fs).2 = fs) ∧
    (∀ f : UploadFile, file = some f → f.filename ≠ "" →
      (save_photo file uuid fs).1.1.isSome ∨ (save_photo file uuid fs).1.2.isSome) := by
  cases file with
  | none => simp [save_photo]
  | some f =>
    simp only [save_photo]
    by_cases h1 : f.filename = ""
    · simp [h1]
    · rw [if_neg h1]
      by_cases h2 : allowed_file f.filename
      · simp only [h2, Bool.not_true, Bool.false_eq_true, if_false]
        cases hd : f.decodeError with
        | some e => simp [List.erase_cons_head]
        | none =>
          simp only []
          by_cases h3 : f.height = 0
          · simp [h3, List.erase_cons_head]
          · rw [if_neg h3]
            by_cases h4 :
                ASPECT_RATIO * (1 - ASPECT_RATIO_TOLERANCE) ≤ (f.width : Rat) / (f.height : Rat) ∧
                (f.width : Rat) / (f.height : Rat) ≤ ASPECT_RATIO * (1 + ASPECT_RATIO_TOLERANCE)
            · simp [h4]
            · simp [h4, List.erase_cons_head]
      · simp [h2]

/-! ## Claims -/

/-- C8: GET /tariffs/{id} returns 200 iff a tariff with that id exists and is
active; an inactive tariff produces literally the same not-found response as
an id for which no tariff exists. -/
theorem C8_tariff_active_only (s : Store) (tid : Nat) :
    ((∃ t ∈ s.tariffs, t.id = tid ∧ t.is_active = true) ↔ (get_tariff s tid).status = 200) ∧
    (¬(∃ t ∈ s.tariffs, t.id = tid ∧ t.is_active = true) →
      get_tariff s tid = ⟨404, .msg "Active tariff not found"⟩) := by
  have hiff : (s.tariffs.find? (fun t => t.id == tid && t.is_active)).isSome = true ↔
      ∃ t ∈ s.tariffs, t.id = tid ∧ t.is_active = true := by
    rw [List.find?_isSome]
    constructor
    · rintro ⟨t, ht, hp⟩
      simp only [Bool.and_eq_true, beq_iff_eq] at hp
      exact ⟨t, ht, hp.1, hp.2⟩
    · rintro ⟨t, ht, h1, h2⟩
      exact ⟨t, ht, by simp [h1, h2]⟩
  constructor
  · rw [← hiff]
    unfold get_tariff
    cases hf : s.tariffs.find? (fun t => t.id == tid && t.is_active) <;> simp [hf]
  · intro hne
    rw [← hiff] at hne
    unfold get_tariff
    cases hf : s.tariffs.find? (fun t => t.id == tid && t.is_active) with
    | none => rfl
    | some t => rw [hf] at hne; simp at hne

/-- Witness for C8: a store whose only tariff (id 1) is inactive and a store
with no tariffs produce the identical 404 response; an active tariff with
the id gives 200. -/
theorem C8_tariff_active_only_witness :
    get_tariff ⟨[], [], [⟨1, "basic", 30, 10, "USD", false⟩]⟩ 1 =
      ⟨404, .msg "Active tariff not found"⟩ ∧
    get_tariff ⟨[], [], []⟩ 1 = ⟨404, .msg "Active tariff not found"⟩ ∧
    (get_tariff ⟨[], [], [⟨1, "basic", 30, 10, "USD", true⟩]⟩ 1).status = 200 := by
  refine ⟨?_, ?_, ?_⟩
  · exact (C8_tariff_active_only ⟨[], [], [⟨1, "basic", 30, 10, "USD", false⟩]⟩ 1).2 (by decide)
  · exact (C8_tariff_active_only ⟨[], [], []⟩ 1).2 (by simp)
  · exact (C8_tariff_active_only ⟨[], [], [⟨1, "basic", 30, 10, "USD", true⟩]⟩ 1).1.mp
      ⟨⟨1, "basic", 30, 10, "USD", true⟩, by simp, rfl, rfl⟩

/-- C9: save_photo never returns both a stored filename and an error; a
supplied file with a non-empty name yields exactly one of the two; and
whenever an error is returned the uploads directory is exactly as before
the call, so no file remains at the generated path. -/
theorem C9_save_photo_invariant (file : Option UploadFile) (uuid : String) (fs : List String) :
    ¬((save_photo file uuid fs).1.1.isSome ∧ (save_photo file uuid fs).1.2.isSome) ∧
    (∀ f : UploadFile, file = some f → f.filename ≠ "" →
      ((save_photo file uuid fs).1.1.isSome ↔ ¬(save_photo file uuid fs).1.2.isSome)) ∧
    ((save_photo file uuid fs).1.2.isSome → (save_photo file uuid fs).2 = fs) := by
  obtain ⟨herr, hone⟩ := save_photo_error_cases file uuid fs
  refine ⟨?_, ?_, fun h => (herr h).2⟩
  · rintro ⟨h1, h2⟩
    rw [(herr h2).1] at h1
    simp at h1
  · intro f hf hne
    constructor
    · intro h1 h2
      rw [(herr h2).1] at h1
      simp at h1
    · intro h2
      rcases hone f hf hne with h | h
      · exact h
      · exact absurd h h2

/-- Witness for C9: a valid 16:9 png upload stores a name without error; a
square image errors without a name and leaves the directory as before. -/
theorem C9_save_photo_invariant_witness :
    ¬((save_photo (some ⟨"a.png", 16, 9, none⟩) "u" []).1.1.isSome ∧
      (save_photo (some ⟨"a.png", 16, 9, none⟩) "u" []).1.2.isSome) ∧
    (save_photo (some ⟨"b.png", 100, 100, none⟩) "u" ["keep.png"]).2 = ["keep.png"] := by
  refine ⟨(C9_save_photo_invariant (some ⟨"a.png", 16, 9, none⟩) "u" []).1, ?_⟩
  exact (C9_save_photo_invariant (some ⟨"b.png", 100, 100, none⟩) "u" ["keep.png"]).2.2
    (by with_unfolding_all decide)

/-- C10: an empty-list bulk reorder succeeds, returns the same success
message as any successful non-empty reorder, and leaves the store unchanged;
a payload that is not a list is rejected with 400 (before any lookup) and
also leaves the store unchanged. -/
theorem C10_empty_or_nonlist_reorder (s : Store) :
    update_chapters_order s (some []) =
      (⟨200, .msg "Chapters order updated successfully"⟩, s) ∧
    update_articles_order s (some []) =
      (⟨200, .msg "Articles order updated successfully"⟩, s) ∧
    update_chapters_order s none =
      (⟨400, .msg "Invalid data format. Expected a list of objects."⟩, s) ∧
    update_articles_order s none =
      (⟨400, .msg "Invalid data format. Expected a list of objects."⟩, s) ∧
    (∀ (items : List OrderItem) (r : ApiResp) (s' : Store),
      update_chapters_order s (some items) = (r, s') → r.status = 200 →
      r = ⟨200, .msg "Chapters order updated successfully"⟩) ∧
    (∀ (items : List OrderItem) (r : ApiResp) (s' : Store),
      update_articles_order s (some items) = (r, s') → r.status = 200 →
      r = ⟨200, .msg "Articles order updated successfully"⟩) := by
  refine ⟨rfl, rfl, rfl, rfl, ?_, ?_⟩
  · intro items r s' heq hst
    cases hl : chapterOrderLoop (s.chapters.map (·.id)) s.chapters items with
    | ok cs =>
      simp only [update_chapters_order, hl] at heq
      injection heq with h1 h2
      exact h1.symm
    | error i =>
      simp only [update_chapters_order, hl] at heq
      injection heq with h1 h2
      rw [← h1] at hst
      simp at hst
  · intro items r s' heq hst
    cases hl : articleOrderLoop (s.articles.map (·.id)) s.articles items with
    | ok al =>
      simp only [update_articles_order, hl] at heq
      injection heq with h1 h2
      exact h1.symm
    | error i =>
      simp only [update_articles_order, hl] at heq
      injection heq with h1 h2
      rw [← h1] at hst
      simp at hst

/-- Witness for C10 at a concrete one-chapter store, including a successful
non-empty reorder carrying the same message as the empty one. -/
theorem C10_empty_or_nonlist_reorder_witness :
    update_chapters_order ⟨[⟨1, none, "a", 1⟩], [], []⟩ (some []) =
      (⟨200, .msg "Chapters order updated successfully"⟩, ⟨[⟨1, none, "a", 1⟩], [], []⟩) ∧
    (⟨200, .msg "Chapters order updated successfully"⟩ : ApiResp) =
      ⟨200, .msg "Chapters order updated successfully"⟩ := by
  refine ⟨(C10_empty_or_nonlist_reorder ⟨[⟨1, none, "a", 1⟩], [], []⟩).1, ?_⟩
  exact (C10_empty_or_nonlist_reorder ⟨[⟨1, none, "a", 1⟩], [], []⟩).2.2.2.2.1
    [⟨1, 5⟩] _ ⟨[⟨1, none, "a", 5⟩], [], []⟩ rfl rfl

/-- C5: for an uploaded image with an allowed extension that decodes, and a
positive height, save_photo accepts iff width/height lies in the closed
interval [16/9 * 0.95, 16/9 * 1.05] (a ratio exactly at a boundary is
accepted); with a zero height a validation error is returned; and whenever
an error is returned no filename is produced and the just-written file is
deleted, leaving the uploads directory exactly as before the call.
(Python float division is modelled as exact rational arithmetic.) -/
theorem C5_aspect_ratio_bounds (f : UploadFile) (uuid : String) (fs : List String)
    (h1 : f.filename ≠ "") (h2 : allowed_file f.filename = true)
    (h3 : f.decodeError = none) :
    (0 < f.height →
      ((save_photo (some f) uuid fs).1.1.isSome ↔
        (16 / 9 * (95 / 100) ≤ (f.width : Rat) / (f.height : Rat) ∧
         (f.width : Rat) / (f.height : Rat) ≤ 16 / 9 * (105 / 100)))) ∧
    (f.height = 0 → (save_photo (some f) uuid fs).1.2.isSome) ∧
    ((save_photo (some f) uuid fs).1.2.isSome →
      (save_photo (some f) uuid fs).1.1 = none ∧ (save_photo (some f) uuid fs).2 = fs) := by
  refine ⟨?_, ?_, (save_photo_error_cases (some f) uuid fs).1⟩
  · intro hh
    have hh0 : ¬ f.height = 0 := by omega
    have hL : ASPECT_RATIO * (1 - ASPECT_RATIO_TOLERANCE) = 16 / 9 * (95 / 100) := by
      norm_num [ ASPECT_RATIO, ASPECT_RATIO_TOLERANCE]
    have hU : ASPECT_RATIO * (1 + ASPECT_RATIO_TOLERANCE) = 16 / 9 * (105 / 100) := by
      norm_num [ ASPECT_RATIO, ASPECT_RATIO_TOLERANCE]
    simp only [save_photo, if_neg h1, h2, Bool.not_true, Bool.false_eq_true, if_false, h3,
      if_neg hh0, hL, hU]
    by_cases h4 : 16 / 9 * (95 / 100) ≤ (f.width : Rat) / (f.height : Rat) ∧
        (f.width : Rat) / (f.height : Rat) ≤ 16 / 9 * (105 / 100)
    · rw [if_pos h4]
      simp [h4]
    · rw [if_neg h4]
      simp [h4]
  · intro hh
    simp [save_photo, if_neg h1, h2, h3, hh]

/-- Witness for C5: a 28x15 png (width/height exactly 16/9 * 1.05, the upper
tolerance boundary) is accepted; a 100x100 png errors and the directory is
unchanged; a png of zero height errors. -/
theorem C5_aspect_ratio_bounds_witness :
    (save_photo (some ⟨"a.png", 28, 15, none⟩) "u" []).1.1.isSome = true ∧
    (save_photo (some ⟨"b.png", 100, 100, none⟩) "u" []).2 = ([] : List String) ∧
    (save_photo (some ⟨"c.png", 16, 0, none⟩) "u" []).1.2.isSome = true := by
  refine ⟨?_, ?_, ?_⟩
  · exact (C5_aspect_ratio_bounds ⟨"a.png", 28, 15, none⟩ "u" []
      (by decide) (by with_unfolding_all decide) rfl).1 (by decide) |>.mpr (by norm_num)
  · exact ((C5_aspect_ratio_bounds ⟨"b.png", 100, 100, none⟩ "u" []
      (by decide) (by with_unfolding_all decide) rfl).2.2 (by with_unfolding_all decide)).2
  · exact (C5_aspect_ratio_bounds ⟨"c.png", 16, 0, none⟩ "u" []
      (by decide) (by with_unfolding_all decide) rfl).2.1 rfl

/-- C1: bulk reorder is all-or-nothing.  If some payload id matches no
chapter (resp. article), the endpoint returns a 404 and the store is exactly
the pre-request store — no pair is applied.  If every id resolves, the call
succeeds with one commit whose effect is to write every supplied order value
(for entities named several times, the last pair wins; with distinct payload
ids every named entity carries exactly its supplied order afterwards). -/
theorem C1_bulk_reorder_atomic (s : Store) (items : List OrderItem) :
    ((∃ it ∈ items, ∀ c ∈ s.chapters, c.id ≠ it.id) →
      ∃ m, update_chapters_order s (some items) = (⟨404, .msg m⟩, s)) ∧
    ((∀ it ∈ items, ∃ c ∈ s.chapters, c.id = it.id) →
      update_chapters_order s (some items) =
        (⟨200, .msg "Chapters order updated successfully"⟩,
         { s with chapters :=
            s.chapters.map fun c => { c with order := finalOrder items c.id c.order } }) ∧
      ((items.map (·.id)).Nodup → ∀ it ∈ items,
        ∀ c' ∈ (update_chapters_order s (some items)).2.chapters,
          c'.id = it.id → c'.order = it.order)) ∧
    ((∃ it ∈ items, ∀ a ∈ s.articles, a.id ≠ it.id) →
      ∃ m, update_articles_order s (some items) = (⟨404, .msg m⟩, s)) ∧
    ((∀ it ∈ items, ∃ a ∈ s.articles, a.id = it.id) →
      update_articles_order s (some items) =
        (⟨200, .msg "Articles order updated successfully"⟩,
         { s with articles :=
            s.articles.map fun a => { a with order := finalOrder items a.id a.order } }) ∧
      ((items.map (·.id)).Nodup → ∀ it ∈ items,
        ∀ a' ∈ (update_articles_order s (some items)).2.articles,
          a'.id = it.id → a'.order = it.order)) := by
  refine ⟨?_, ?_, ?_, ?_⟩
  · rintro ⟨it, hit, hnc⟩
    cases hl : chapterOrderLoop (s.chapters.map (·.id)) s.chapters items with
    | ok cs =>
      exfalso
      have hall := (chapterOrderLoop_ok_iff items (s.chapters.map (·.id)) s.chapters).mp ⟨cs, hl⟩
      obtain ⟨c, hc, hcid⟩ := List.mem_map.mp (hall it hit)
      exact hnc c hc hcid
    | error i =>
      exact ⟨"Chapter with id " ++ toString i ++ " not found",
        by simp only [update_chapters_order, hl]⟩
  · intro hall
    have hmem : ∀ it ∈ items, it.id ∈ s.chapters.map (·.id) := by
      intro it hit
      obtain ⟨c, hc, hcid⟩ := hall it hit
      exact List.mem_map.mpr ⟨c, hc, hcid⟩
    obtain ⟨cs, hl⟩ := (chapterOrderLoop_ok_iff items (s.chapters.map (·.id)) s.chapters).mpr hmem
    have hcs := chapterOrderLoop_ok_eq items (s.chapters.map (·.id)) s.chapters cs hl
    constructor
    · simp only [update_chapters_order, hl, hcs]
    · intro hnd it hit c' hc' hcid
      simp only [update_chapters_order, hl, hcs] at hc'
      obtain ⟨c, _, hceq⟩ := List.mem_map.mp hc'
      have hcid2 : c.id = it.id := by rw [← hceq] at hcid; exact hcid
      rw [← hceq]
      simp only []
      rw [hcid2]
      exact finalOrder_nodup items hnd it hit c.order
  · rintro ⟨it, hit, hna⟩
    cases hl : articleOrderLoop (s.articles.map (·.id)) s.articles items with
    | ok al =>
      exfalso
      have hall := (articleOrderLoop_ok_iff items (s.articles.map (·.id)) s.articles).mp ⟨al, hl⟩
      obtain ⟨a, ha, haid⟩ := List.mem_map.mp (hall it hit)
      exact hna a ha haid
    | error i =>
      exact ⟨"Article with id " ++ toString i ++ " not found",
        by simp only [update_articles_order, hl]⟩
  · intro hall
    have hmem : ∀ it ∈ items, it.id ∈ s.articles.map (·.id) := by
      intro it hit
      obtain ⟨a, ha, haid⟩ := hall it hit
      exact List.mem_map.mpr ⟨a, ha, haid⟩
    obtain ⟨al, hl⟩ := (articleOrderLoop_ok_iff items (s.articles.map (·.id)) s.articles).mpr hmem
    have hal := articleOrderLoop_ok_eq items (s.articles.map (·.id)) s.articles al hl
    constructor
    · simp only [update_articles_order, hl, hal]
    · intro hnd it hit a' ha' haid
      simp only [update_articles_order, hl, hal] at ha'
      obtain ⟨a, _, haeq⟩ := List.mem_map.mp ha'
      have haid2 : a.id = it.id := by rw [← haeq] at haid; exact haid
      rw [← haeq]
      simp only []
      rw [haid2]
      exact finalOrder_nodup items hnd it hit a.order

/-- Witness for C1 at a concrete two-chapter store: one unknown id gives a
404 with the store untouched; all ids known gives success with both supplied
orders written. -/
theorem C1_bulk_reorder_atomic_witness :
    (∃ m, update_chapters_order ⟨[⟨1, none, "a", 1⟩, ⟨2, none, "b", 2⟩], [], []⟩
        (some [⟨1, 5⟩, ⟨3, 7⟩]) =
      (⟨404, .msg m⟩, ⟨[⟨1, none, "a", 1⟩, ⟨2, none, "b", 2⟩], [], []⟩)) ∧
    update_chapters_order ⟨[⟨1, none, "a", 1⟩, ⟨2, none, "b", 2⟩], [], []⟩
        (some [⟨1, 5⟩, ⟨2, 7⟩]) =
      (⟨200, .msg "Chapters order updated successfully"⟩,
       ⟨[⟨1, none, "a", 5⟩, ⟨2, none, "b", 7⟩], [], []⟩) := by
  constructor
  · exact (C1_bulk_reorder_atomic ⟨[⟨1, none, "a", 1⟩, ⟨2, none, "b", 2⟩], [], []⟩
      [⟨1, 5⟩, ⟨3, 7⟩]).1 (by decide)
  · exact ((C1_bulk_reorder_atomic ⟨[⟨1, none, "a", 1⟩, ⟨2, none, "b", 2⟩], [], []⟩
      [⟨1, 5⟩, ⟨2, 7⟩]).2.1 (by decide)).1

theorem ordSeq_succ (k : Nat) : ordSeq (k + 1) = ordSeq k ++ [(k : Int) + 1] := by
  simp [ordSeq, List.range_succ]

theorem create_chapter_no_photo (s : Store) (fs : List String) (t : String) (uuid : String)
    (nid : Nat) (ht : t ≠ "") :
    create_chapter s fs { title := some t, photo := none } uuid nid =
      (⟨201, Body.chapter (Chapter.to_dict
         ⟨nid, none, t, (maxOrder (s.chapters.map (·.order))).getD 0 + 1⟩)⟩,
       { s with chapters := s.chapters ++
         [⟨nid, none, t, (maxOrder (s.chapters.map (·.order))).getD 0 + 1⟩] }, fs) := by
  simp only [create_chapter, save_photo, Option.getD_some]
  rw [if_neg ht]

/-- C3: a create with no explicit order (the endpoints never accept one)
assigns max-of-scope + 1 and 1 on an empty scope — for chapters the scope is
all chapters, for articles the articles of the supplied chapter_id. -/
theorem C3_append_order_assignment :
    (∀ (s : Store) (fs : List String) (t : String) (photo : Option UploadFile)
        (uuid : String) (newId : Nat) (pf : Option String) (fs1 : List String),
      t ≠ "" →
      save_photo photo uuid fs = ((pf, none), fs1) →
      ∃ c : Chapter,
        (create_chapter s fs { title := some t, photo := photo } uuid newId).2.1.chapters =
          s.chapters ++ [c] ∧
        (s.chapters = [] → c.order = 1) ∧
        (∀ m : Int, m ∈ s.chapters.map (·.order) →
          (∀ y ∈ s.chapters.map (·.order), y ≤ m) → c.order = m + 1)) ∧
    (∀ (s : Store) (fs : List String) (t d lk : String) (cid : Nat)
        (photo : Option UploadFile) (uuid : String) (newId : Nat)
        (pf : Option String) (fs1 : List String),
      (∃ ch ∈ s.chapters, ch.id = cid) →
      save_photo photo uuid fs = ((pf, none), fs1) →
      ∃ a : Article,
        (create_article s fs
            { title := some t, description := some d, link := some lk,
              chapter_id := some cid, photo := photo } uuid newId).2.1.articles =
          s.articles ++ [a] ∧
        ((s.articles.filter (fun x => x.chapter_id == cid)).map (·.order) = [] →
          a.order = 1) ∧
        (∀ m : Int, m ∈ (s.articles.filter (fun x => x.chapter_id == cid)).map (·.order) →
          (∀ y ∈ (s.articles.filter (fun x => x.chapter_id == cid)).map (·.order), y ≤ m) →
          a.order = m + 1)) := by
  constructor
  · intro s fs t photo uuid newId pf fs1 ht hsave
    simp only [create_chapter, Option.getD_some]
    rw [if_neg ht, hsave]
    refine ⟨_, rfl, ?_, ?_⟩
    · intro h0
      rw [h0]
      simp [maxOrder]
    · intro m hm hub
      show (maxOrder (s.chapters.map (·.order))).getD 0 + 1 = m + 1
      rw [maxOrder_unique hm hub]
      rfl
  · intro s fs t d lk cid photo uuid newId pf fs1 hch hsave
    obtain ⟨ch, hchmem, hchid⟩ := hch
    cases hf : s.chapters.find? (fun c => c.id == cid) with
    | none =>
      exfalso
      exact absurd (by simp [hchid] : (fun c : Chapter => c.id == cid) ch = true)
        (by simpa using List.find?_eq_none.mp hf ch hchmem)
    | some c0 =>
      simp only [create_article, hf, Option.isNone_some, Bool.false_eq_true, if_false]
      rw [hsave]
      refine ⟨_, rfl, ?_, ?_⟩
      · intro h0
        rw [h0]
        simp [maxOrder]
      · intro m hm hub
        show (maxOrder ((s.articles.filter (fun x => x.chapter_id == cid)).map (·.order))).getD 0
            + 1 = m + 1
        rw [maxOrder_unique hm hub]
        rfl

/-- Witness for C3: creating a chapter in a store whose orders are [1, 5]
assigns order 6; creating an article in a chapter with no articles yet
assigns order 1. -/
theorem C3_append_order_assignment_witness :
    ∃ c : Chapter,
      (create_chapter ⟨[⟨1, none, "a", 1⟩, ⟨2, none, "b", 5⟩], [], []⟩ []
          { title := some "t", photo := none } "u" 3).2.1.chapters =
        [⟨1, none, "a", 1⟩, ⟨2, none, "b", 5⟩] ++ [c] ∧ c.order = 6 := by
  obtain ⟨c, hc, _, hmax⟩ :=
    (C3_append_order_assignment).1 ⟨[⟨1, none, "a", 1⟩, ⟨2, none, "b", 5⟩], [], []⟩ []
      "t" none "u" 3 none [] (by decide) rfl
  exact ⟨c, hc, by rw [hmax 5 (by decide) (by decide)]; decide⟩

theorem runChapterCreates_orders : ∀ (reqs : List (String × Nat)) (s : Store)
    (fs : List String) (k : Nat),
    s.chapters.map (·.order) = ordSeq k → (∀ p ∈ reqs, p.1 ≠ "") →
    ((runChapterCreates s fs reqs).1.chapters.map (·.order)) = ordSeq (k + reqs.length) := by
  intro reqs
  induction reqs with
  | nil =>
    intro s fs k h _
    simpa using h
  | cons p rest ih =>
    intro s fs k h hts
    obtain ⟨t, nid⟩ := p
    have ht : t ≠ "" := hts (t, nid) (List.mem_cons_self _ _)
    simp only [runChapterCreates, create_chapter_no_photo s fs t "" nid ht]
    have hord0 : (maxOrder (ordSeq k)).getD 0 = (k : Int) := by
      rw [maxOrder_ordSeq]
      by_cases hk : k = 0
      · subst hk; simp
      · rw [if_neg hk]; rfl
    have hnew : ({ s with chapters := s.chapters ++
        [⟨nid, none, t, (maxOrder (s.chapters.map (·.order))).getD 0 + 1⟩] } : Store).chapters.map
          (·.order) = ordSeq (k + 1) := by
      simp only [List.map_append, List.map_cons, List.map_nil, h]
      rw [ordSeq_succ, hord0]
    have harith : k + (rest.length + 1) = (k + 1) + rest.length := by omega
    rw [show ((t, nid) :: rest).length = rest.length + 1 from rfl, harith]
    exact ih _ fs (k + 1) hnew (fun q hq => hts q (List.mem_cons_of_mem _ hq))

/-- C4: starting from a store with no chapters, a sequence of N successful
creates (nonempty titles, no explicit order — the endpoint accepts none)
yields chapters whose order values are exactly 1..N in creation order. -/
theorem C4_sequential_create_orders (reqs : List (String × Nat)) (s : Store)
    (fs : List String) (h0 : s.chapters = []) (hts : ∀ p ∈ reqs, p.1 ≠ "") :
    ((runChapterCreates s fs reqs).1.chapters.map (·.order)) = ordSeq reqs.length := by
  have h := runChapterCreates_orders reqs s fs 0 (by simp [h0, ordSeq]) hts
  simpa using h

/-- Witness for C4: three creates from the empty store yield orders
[1, 2, 3]. -/
theorem C4_sequential_create_orders_witness :
    ((runChapterCreates ⟨[], [], []⟩ [] [("a", 1), ("b", 2), ("c", 3)]).1.chapters.map
      (·.order)) = [1, 2, 3] := by
  have h := C4_sequential_create_orders [("a", 1), ("b", 2), ("c", 3)] ⟨[], [], []⟩ []
    rfl (by decide)
  rw [h]
  decide

/-- C7: POST /articles whose chapter_id matches no existing chapter returns
a 404 naming that id, creates no article row, and leaves the uploads
directory untouched: the chapter-existence check runs before save_photo, so
the uploaded photo — valid or not — is never written to disk. -/
theorem C7_article_missing_chapter (s : Store) (fs : List String) (t d lk : String)
    (cid : Nat) (photo : Option UploadFile) (uuid : String) (newId : Nat)
    (hnone : ∀ c ∈ s.chapters, c.id ≠ cid) :
    create_article s fs
        { title := some t, description := some d, link := some lk,
          chapter_id := some cid, photo := photo } uuid newId =
      (⟨404, .msg ("Chapter with id " ++ toString cid ++ " not found")⟩, s, fs) := by
  have hf : s.chapters.find? (fun c => c.id == cid) = none :=
    List.find?_eq_none.mpr (fun c hc => by simp [hnone c hc])
  simp only [create_article, hf, Option.isNone_none, if_true]

/-- Witness for C7: a one-chapter store (id 1), a request for chapter 2 with
a valid 16:9 photo attached: 404, no row, no file written. -/
theorem C7_article_missing_chapter_witness :
    create_article ⟨[⟨1, none, "c", 1⟩], [], []⟩ []
        { title := some "t", description := some "d", link := some "l",
          chapter_id := some 2, photo := some ⟨"a.png", 16, 9, none⟩ } "u" 7 =
      (⟨404, .msg ("Chapter with id " ++ toString 2 ++ " not found")⟩,
       ⟨[⟨1, none, "c", 1⟩], [], []⟩, []) :=
  C7_article_missing_chapter ⟨[⟨1, none, "c", 1⟩], [], []⟩ [] "t" "d" "l" 2
    (some ⟨"a.png", 16, 9, none⟩) "u" 7 (by decide)

/-- C6 counterexample: POST /chapters with a title but no photo is not
rejected — it returns 201 and creates a chapter with no stored photo —
although the claim says a request missing either required field (title,
photo) is rejected with a bad-request error and creates no chapter. -/
theorem C6_counterexample :
    (create_chapter ⟨[], [], []⟩ [] { title := some "t", photo := none } "u" 1).1.status
      = 201 ∧
    (create_chapter ⟨[], [], []⟩ [] { title := some "t", photo := none } "u" 1).2.1.chapters
      = [⟨1, none, "t", 1⟩] := by
  with_unfolding_all decide

/-- C6 amended: POST /chapters enforces only the title (despite the photo
being documented as required): a missing or empty title is rejected with 400
and creates nothing; a request with a title and no photo succeeds, creating
the chapter with photo_path = none (save_photo deliberately treats an absent
file as no error); a supplied photo that fails validation is rejected with
400 and creates nothing. -/
theorem C6_amended_required_fields (s : Store) (fs : List String)
    (req : CreateChapterReq) (uuid : String) (newId : Nat) :
    (req.title.getD "" = "" →
      create_chapter s fs req uuid newId = (⟨400, .msg "Title is required"⟩, s, fs)) ∧
    (∀ t, req.title = some t → t ≠ "" → req.photo = none →
      create_chapter s fs req uuid newId =
        (⟨201, Body.chapter (Chapter.to_dict
           ⟨newId, none, t, (maxOrder (s.chapters.map (·.order))).getD 0 + 1⟩)⟩,
         { s with chapters := s.chapters ++
           [⟨newId, none, t, (maxOrder (s.chapters.map (·.order))).getD 0 + 1⟩] }, fs)) ∧
    (req.title.getD "" ≠ "" → ∀ e, (save_photo req.photo uuid fs).1.2 = some e →
      create_chapter s fs req uuid newId = (⟨400, .msg e⟩, s, (save_photo req.photo uuid fs).2)) := by
  obtain ⟨rt, rp⟩ := req
  refine ⟨?_, ?_, ?_⟩
  · intro h
    simp only [create_chapter]
    rw [if_pos h]
  · intro t ht htne hph
    simp only at ht hph
    subst ht
    subst hph
    exact create_chapter_no_photo s fs t uuid newId htne
  · intro hne e hsv
    simp only at hne hsv ⊢
    rcases hsp : save_photo rp uuid fs with ⟨⟨pf, err⟩, fs2⟩
    rw [hsp] at hsv
    simp only at hsv
    subst hsv
    simp only [create_chapter, hsp]
    rw [if_neg hne]

/-- C2 counterexample: PUT /chapters on chapter 1 (stored photo "old.png",
present on disk) supplying a new photo that fails ratio validation.  The
request is rejected (400) and nothing is committed to the store, but the
previously stored photo file "old.png" has been deleted from disk — the
code deletes the old file before validating the new one, so the prior photo
is not untouched as the claim states. -/
theorem C2_counterexample :
    "old.png" ∈ (["old.png"] : List String) ∧
    (update_chapter ⟨[⟨1, some "old.png", "t", 1⟩], [], []⟩ ["old.png"]
        ⟨some 1, none, none, some ⟨"new.png", 100, 100, none⟩⟩ "u").1.status = 400 ∧
    (update_chapter ⟨[⟨1, some "old.png", "t", 1⟩], [], []⟩ ["old.png"]
        ⟨some 1, none, none, some ⟨"new.png", 100, 100, none⟩⟩ "u").2.1 =
      ⟨[⟨1, some "old.png", "t", 1⟩], [], []⟩ ∧
    "old.png" ∉ (update_chapter ⟨[⟨1, some "old.png", "t", 1⟩], [], []⟩ ["old.png"]
        ⟨some 1, none, none, some ⟨"new.png", 100, 100, none⟩⟩ "u").2.2 := by
  with_unfolding_all decide

/-- C2 amended: on PUT /chapters (resp. /articles) with a new photo that
fails validation, the request is rejected with 400 and no change from the
request — other supplied fields and the stored photo_path included — is
committed to the store; however the entity's previously stored photo FILE is
deleted from disk before the new photo is validated, so it does not survive
the failed request. -/
theorem C2_amended_update_photo_failure (s : Store) (fs : List String) (uuid : String) :
    (∀ (rt : Option String) (ro : Option Int) (cid : Nat) (ch : Chapter) (f : UploadFile),
      s.chapters.find? (fun c => c.id == cid) = some ch →
      f.filename ≠ "" →
      (save_photo (some f) uuid (delete_photo ch.photo_path fs)).1.2.isSome →
      (update_chapter s fs ⟨some cid, rt, ro, some f⟩ uuid).1.status = 400 ∧
      (update_chapter s fs ⟨some cid, rt, ro, some f⟩ uuid).2.1 = s ∧
      (∀ p, ch.photo_path = some p → p ≠ "" → fs.Nodup →
        p ∉ (update_chapter s fs ⟨some cid, rt, ro, some f⟩ uuid).2.2)) ∧
    (∀ (rt rd rl : Option String) (ro : Option Int) (rc : Option Nat) (aid : Nat)
        (a : Article) (f : UploadFile),
      s.articles.find? (fun x => x.id == aid) = some a →
      f.filename ≠ "" →
      (save_photo (some f) uuid (delete_photo a.photo_path fs)).1.2.isSome →
      (update_article s fs ⟨some aid, rt, rd, rl, ro, rc, some f⟩ uuid).1.status = 400 ∧
      (update_article s fs ⟨some aid, rt, rd, rl, ro, rc, some f⟩ uuid).2.1 = s ∧
      (∀ p, a.photo_path = some p → p ≠ "" → fs.Nodup →
        p ∉ (update_article s fs ⟨some aid, rt, rd, rl, ro, rc, some f⟩ uuid).2.2)) := by
  constructor
  · intro rt ro cid ch f hf hfn herr
    cases rt <;> cases ro <;>
    · simp only [update_chapter, hf]
      rw [if_pos hfn]
      rcases hsp : save_photo (some f) uuid (delete_photo ch.photo_path fs) with ⟨⟨pf, err⟩, fs2⟩
      rw [hsp] at herr
      simp only at herr
      obtain ⟨e, he⟩ := Option.isSome_iff_exists.mp herr
      subst he
      have hfs2 : fs2 = delete_photo ch.photo_path fs := by
        have h2 := (save_photo_error_cases (some f) uuid (delete_photo ch.photo_path fs)).1
        rw [hsp] at h2
        exact (h2 (by simp)).2
      refine ⟨rfl, rfl, ?_⟩
      intro p hp hpne hnd
      simp only [hfs2, hp, delete_photo]
      rw [if_neg hpne]
      by_cases hc : fs.contains p = true
      · rw [if_pos hc]
        exact List.Nodup.not_mem_erase hnd
      · rw [if_neg hc]
        intro hmem
        exact hc (by simpa [List.contains] using hmem)
  · intro rt rd rl ro rc aid a f hf hfn herr
    cases rt <;> cases rd <;> cases rl <;> cases ro <;> cases rc <;>
    · simp only [update_article, hf]
      rw [if_pos hfn]
      rcases hsp : save_photo (some f) uuid (delete_photo a.photo_path fs) with ⟨⟨pf, err⟩, fs2⟩
      rw [hsp] at herr
      simp only at herr
      obtain ⟨e, he⟩ := Option.isSome_iff_exists.mp herr
      subst he
      have hfs2 : fs2 = delete_photo a.photo_path fs := by
        have h2 := (save_photo_error_cases (some f) uuid (delete_photo a.photo_path fs)).1
        rw [hsp] at h2
        exact (h2 (by simp)).2
      refine ⟨rfl, rfl, ?_⟩
      intro p hp hpne hnd
      simp only [hfs2, hp, delete_photo]
      rw [if_neg hpne]
      by_cases hc : fs.contains p = true
      · rw [if_pos hc]
        exact List.Nodup.not_mem_erase hnd
      · rw [if_neg hc]
        intro hmem
        exact hc (by simpa [List.contains] using hmem)

/-- Witness for C2 (amended) at the concrete counterexample input. -/
theorem C2_amended_update_photo_failure_witness :
    (update_chapter ⟨[⟨1, some "old.png", "t", 1⟩], [], []⟩ ["old.png"]
        ⟨some 1, none, none, some ⟨"new.png", 100, 100, none⟩⟩ "u").1.status = 400 ∧
    (update_chapter ⟨[⟨1, some "old.png", "t", 1⟩], [], []⟩ ["old.png"]
        ⟨some 1, none, none, some ⟨"new.png", 100, 100, none⟩⟩ "u").2.1 =
      ⟨[⟨1, some "old.png", "t", 1⟩], [], []⟩ ∧
    "old.png" ∉ (update_chapter ⟨[⟨1, some "old.png", "t", 1⟩], [], []⟩ ["old.png"]
        ⟨some 1, none, none, some ⟨"new.png", 100, 100, none⟩⟩ "u").2.2 := by
  obtain ⟨h1, h2, h3⟩ :=
    (C2_amended_update_photo_failure ⟨[⟨1, some "old.png", "t", 1⟩], [], []⟩ ["old.png"] "u").1
      none none 1 ⟨1, some "old.png", "t", 1⟩ ⟨"new.png", 100, 100, none⟩
      (by with_unfolding_all decide) (by decide) (by with_unfolding_all decide)
  exact ⟨h1, h2, h3 "old.png" rfl (by decide) (by decide)⟩

/-- Witness for C6 (amended): a request with no title is rejected; one with
a title and no photo is created. -/
theorem C6_amended_required_fields_witness :
    create_chapter ⟨[], [], []⟩ [] { title := none, photo := none } "u" 1 =
      (⟨400, .msg "Title is required"⟩, ⟨[], [], []⟩, []) ∧
    (create_chapter ⟨[], [], []⟩ [] { title := some "t", photo := none } "u" 1).1.status
      = 201 := by
  constructor
  · exact (C6_amended_required_fields ⟨[], [], []⟩ [] { title := none, photo := none }
      "u" 1).1 rfl
  · have h := (C6_amended_required_fields ⟨[], [], []⟩ []
      { title := some "t", photo := none } "u" 1).2.1 "t" rfl (by decide) rfl
    rw [h]
